import Mathlib

/-!
Verification development for the `cozepy.chat` streaming chat module.

Python strings are modelled as `List Char` (a Python `str` is a sequence of
code points).  The streaming transport is modelled as the list of decoded
lines still available from the underlying iterator; pulling one event
(`ChatIterator.__next__`) consumes a prefix of that list and returns a
result together with the remaining lines.
-/

set_option maxHeartbeats 1000000

/-- Python `str` as a sequence of code points. -/
abbrev PyStr := List Char

/-- Convert a Lean string literal to the `PyStr` model. -/
def pys (s : String) : PyStr := s.data

/-! ## JSON values (the result of `json.loads`) -/

/-- JSON values as produced by Python `json.loads` (floats are not modelled;
a numeric literal with a fractional or exponent part fails to parse). -/
inductive Json where
  | null
  | bool (b : Bool)
  | num (n : Int)
  | str (s : PyStr)
  | arr (xs : List Json)
  | obj (kvs : List (PyStr × Json))

/-- Python `dict` lookup for an object built from a key/value list in parse
order: a later duplicate key overwrites an earlier one. -/
def dictGet : List (PyStr × Json) → PyStr → Option Json
  | [], _ => none
  | (k, v) :: rest, key =>
    match dictGet rest key with
    | some v' => some v'
    | none => if k = key then some v else none

/-! ## A recursive-descent JSON parser modelling `json.loads` -/

def isJsonWs (c : Char) : Bool :=
  c = ' ' || c = '\t' || c = '\n' || c = '\r'

def skipJsonWs : PyStr → PyStr
  | [] => []
  | c :: cs => if isJsonWs c then skipJsonWs cs else c :: cs

def hexVal? (c : Char) : Option Nat :=
  if '0' ≤ c ∧ c ≤ '9' then some (c.toNat - '0'.toNat)
  else if 'a' ≤ c ∧ c ≤ 'f' then some (c.toNat - 'a'.toNat + 10)
  else if 'A' ≤ c ∧ c ≤ 'F' then some (c.toNat - 'A'.toNat + 10)
  else none

/-- Parse the body of a JSON string after the opening quote; returns the
decoded content and the input remaining after the closing quote. -/
def parseJsonStr : Nat → PyStr → Option (PyStr × PyStr)
  | 0, _ => none
  | _, [] => none
  | f + 1, c :: cs =>
    if c = '"' then some ([], cs)
    else if c = '\\' then
      match cs with
      | [] => none
      | e :: cs1 =>
        if e = '"' then (parseJsonStr f cs1).map (fun p => ('"' :: p.1, p.2))
        else if e = '\\' then (parseJsonStr f cs1).map (fun p => ('\\' :: p.1, p.2))
        else if e = '/' then (parseJsonStr f cs1).map (fun p => ('/' :: p.1, p.2))
        else if e = 'b' then (parseJsonStr f cs1).map (fun p => (Char.ofNat 8 :: p.1, p.2))
        else if e = 'f' then (parseJsonStr f cs1).map (fun p => (Char.ofNat 12 :: p.1, p.2))
        else if e = 'n' then (parseJsonStr f cs1).map (fun p => ('\n' :: p.1, p.2))
        else if e = 'r' then (parseJsonStr f cs1).map (fun p => ('\r' :: p.1, p.2))
        else if e = 't' then (parseJsonStr f cs1).map (fun p => ('\t' :: p.1, p.2))
        else if e = 'u' then
          match cs1 with
          | h1 :: h2 :: h3 :: h4 :: cs2 =>
            match hexVal? h1, hexVal? h2, hexVal? h3, hexVal? h4 with
            | some a, some b, some c2, some d2 =>
              (parseJsonStr f cs2).map
                (fun p => (Char.ofNat (a * 4096 + b * 256 + c2 * 16 + d2) :: p.1, p.2))
            | _, _, _, _ => none
          | _ => none
        else none
    else (parseJsonStr f cs).map (fun p => (c :: p.1, p.2))

/-- Longest leading run of ASCII digits. -/
def takeDigits : PyStr → PyStr × PyStr
  | [] => ([], [])
  | c :: cs =>
    if c.isDigit then
      match takeDigits cs with
      | (ds, r) => (c :: ds, r)
    else ([], c :: cs)

def digitsToNat (ds : PyStr) : Nat :=
  ds.foldl (fun acc c => acc * 10 + (c.toNat - '0'.toNat)) 0

/-- `true` when the character would continue a (float) numeric literal;
such literals are outside the modelled fragment and make the parse fail. -/
def isNumCont : PyStr → Bool
  | [] => false
  | c :: _ => c = '.' || c = 'e' || c = 'E'

mutual

def parseJsonVal : Nat → PyStr → Option (Json × PyStr)
  | 0, _ => none
  | f + 1, s =>
    match skipJsonWs s with
    | [] => none
    | c :: cs =>
      if c = '"' then (parseJsonStr f cs).map (fun p => (Json.str p.1, p.2))
      else if c = '{' then
        match skipJsonWs cs with
        | '}' :: r => some (Json.obj [], r)
        | s1 => (parseJsonMembers f s1).map (fun p => (Json.obj p.1, p.2))
      else if c = '[' then
        match skipJsonWs cs with
        | ']' :: r => some (Json.arr [], r)
        | s1 => (parseJsonElems f s1).map (fun p => (Json.arr p.1, p.2))
      else if c = 't' then
        match cs with
        | 'r' :: 'u' :: 'e' :: r => some (Json.bool true, r)
        | _ => none
      else if c = 'f' then
        match cs with
        | 'a' :: 'l' :: 's' :: 'e' :: r => some (Json.bool false, r)
        | _ => none
      else if c = 'n' then
        match cs with
        | 'u' :: 'l' :: 'l' :: r => some (Json.null, r)
        | _ => none
      else if c = '-' then
        match takeDigits cs with
        | ([], _) => none
        | (ds, r) => if isNumCont r then none else some (Json.num (-(digitsToNat ds : Int)), r)
      else if c.isDigit then
        match takeDigits (c :: cs) with
        | (ds, r) => if isNumCont r then none else some (Json.num (digitsToNat ds : Int), r)
      else none

/-- One or more `"key" : value` members followed by the closing brace. -/
def parseJsonMembers : Nat → PyStr → Option (List (PyStr × Json) × PyStr)
  | 0, _ => none
  | f + 1, s =>
    match skipJsonWs s with
    | '"' :: cs =>
      match parseJsonStr f cs with
      | some (key, r1) =>
        match skipJsonWs r1 with
        | ':' :: r2 =>
          match parseJsonVal f r2 with
          | some (v, r3) =>
            match skipJsonWs r3 with
            | ',' :: r4 =>
              (parseJsonMembers f r4).map (fun p => ((key, v) :: p.1, p.2))
            | '}' :: r4 => some ([(key, v)], r4)
            | _ => none
          | none => none
        | _ => none
      | none => none
    | _ => none

/-- One or more array elements followed by the closing bracket. -/
def parseJsonElems : Nat → PyStr → Option (List Json × PyStr)
  | 0, _ => none
  | f + 1, s =>
    match parseJsonVal f s with
    | some (v, r1) =>
      match skipJsonWs r1 with
      | ',' :: r2 => (parseJsonElems f r2).map (fun p => (v :: p.1, p.2))
      | ']' :: r2 => some ([v], r2)
      | _ => none
    | none => none

end

/-- Model of Python `json.loads`: parse one value and require only
whitespace to remain. -/
def jsonLoads (s : PyStr) : Option Json :=
  match parseJsonVal (s.length + 1) s with
  | some (j, r) => if skipJsonWs r = [] then some j else none
  | none => none

/-! ## The typed payload model (`cozepy/chat/__init__.py`) -/

/-- `class MessageRole(str, Enum)`. -/
inductive MessageRole where
  | user
  | assistant
deriving DecidableEq

def MessageRole.value : MessageRole → PyStr
  | .user => pys "user"
  | .assistant => pys "assistant"

/-- Enum lookup `MessageRole(s)` on the string value. -/
def MessageRole.fromValue? (s : PyStr) : Option MessageRole :=
  if s = pys "user" then some .user
  else if s = pys "assistant" then some .assistant
  else none

/-- `class MessageType(str, Enum)`; `unknown` has the value `""`. -/
inductive MessageType where
  | question
  | answer
  | function_call
  | tool_output
  | tool_response
  | follow_up
  | verbose
  | unknown
deriving DecidableEq

def MessageType.value : MessageType → PyStr
  | .question => pys "question"
  | .answer => pys "answer"
  | .function_call => pys "function_call"
  | .tool_output => pys "tool_output"
  | .tool_response => pys "tool_response"
  | .follow_up => pys "follow_up"
  | .verbose => pys "verbose"
  | .unknown => pys ""

def MessageType.fromValue? (s : PyStr) : Option MessageType :=
  if s = pys "question" then some .question
  else if s = pys "answer" then some .answer
  else if s = pys "function_call" then some .function_call
  else if s = pys "tool_output" then some .tool_output
  else if s = pys "tool_response" then some .tool_response
  else if s = pys "follow_up" then some .follow_up
  else if s = pys "verbose" then some .verbose
  else if s = pys "" then some .unknown
  else none

/-- `class MessageContentType(str, Enum)`. -/
inductive MessageContentType where
  | text
  | object_string
  | card
deriving DecidableEq

def MessageContentType.value : MessageContentType → PyStr
  | .text => pys "text"
  | .object_string => pys "object_string"
  | .card => pys "card"

def MessageContentType.fromValue? (s : PyStr) : Option MessageContentType :=
  if s = pys "text" then some .text
  else if s = pys "object_string" then some .object_string
  else if s = pys "card" then some .card
  else none

/-- `class ChatStatus(str, Enum)`. -/
inductive ChatStatus where
  | created
  | in_progress
  | completed
  | failed
  | requires_action
deriving DecidableEq

def ChatStatus.value : ChatStatus → PyStr
  | .created => pys "created"
  | .in_progress => pys "in_progress"
  | .completed => pys "completed"
  | .failed => pys "failed"
  | .requires_action => pys "requires_action"

def ChatStatus.fromValue? (s : PyStr) : Option ChatStatus :=
  if s = pys "created" then some .created
  else if s = pys "in_progress" then some .in_progress
  else if s = pys "completed" then some .completed
  else if s = pys "failed" then some .failed
  else if s = pys "requires_action" then some .requires_action
  else none

/-- `class Message(CozeModel)`.  Fields annotated `x: T = None` in the source
(`id`, `conversation_id`, `bot_id`, `chat_id`, `created_at`, `updated_at`)
are absent-by-default and are modelled as `Option`; `type` defaults to the
empty-string enum member `unknown`; `meta_data` is `Optional[...] = None`. -/
structure Message where
  role : MessageRole
  type : MessageType
  content : PyStr
  content_type : MessageContentType
  meta_data : Option (List (PyStr × PyStr))
  id : Option PyStr
  conversation_id : Option PyStr
  bot_id : Option PyStr
  chat_id : Option PyStr
  created_at : Option Int
  updated_at : Option Int
deriving DecidableEq

/-- `class Chat(CozeModel)`. -/
structure Chat where
  id : PyStr
  conversation_id : PyStr
  bot_id : PyStr
  created_at : Option Int
  completed_at : Option Int
  failed_at : Option Int
  meta_data : Option (List (PyStr × PyStr))
  status : ChatStatus
deriving DecidableEq

/-- Decode a JSON object whose values must all be strings
(a `Dict[str, str]`). -/
def strPairs? : List (PyStr × Json) → Option (List (PyStr × PyStr))
  | [] => some []
  | (k, Json.str v) :: rest => (strPairs? rest).map (fun r => (k, v) :: r)
  | _ => none

/-- Field annotated `x: str = None`: absent gives `none`; a present value
must be a string (an explicit `null` is rejected). -/
def optStrField (kvs : List (PyStr × Json)) (k : PyStr) : Option (Option PyStr) :=
  match dictGet kvs k with
  | none => some none
  | some (Json.str s) => some (some s)
  | some _ => none

/-- Field annotated `x: int = None`: absent gives `none`; a present value
must be an integer (an explicit `null` is rejected). -/
def optIntField (kvs : List (PyStr × Json)) (k : PyStr) : Option (Option Int) :=
  match dictGet kvs k with
  | none => some none
  | some (Json.num n) => some (some n)
  | some _ => none

/-- Field annotated `x: Optional[int] = None`: absent or `null` gives
`none`. -/
def nullableIntField (kvs : List (PyStr × Json)) (k : PyStr) : Option (Option Int) :=
  match dictGet kvs k with
  | none => some none
  | some Json.null => some none
  | some (Json.num n) => some (some n)
  | some _ => none

/-- Field annotated `meta_data: Optional[Dict[str, str]] = None`. -/
def metaDataField (kvs : List (PyStr × Json)) : Option (Option (List (PyStr × PyStr))) :=
  match dictGet kvs (pys "meta_data") with
  | none => some none
  | some Json.null => some none
  | some (Json.obj m) => (strPairs? m).map some
  | some _ => none

/-- Modelled from the spec: `Message.model_validate` (schema validation
inherited from `CozeModel`, whose definition is not under `src/`): the
input must be a JSON object; `role`, `content` and `content_type` are
required; `type` defaults to the empty-string member; unknown keys are
ignored; a wrongly-typed or out-of-enum value fails validation. -/
def Message.model_validate (j : Json) : Option Message :=
  match j with
  | Json.obj kvs =>
    match dictGet kvs (pys "role") with
    | some (Json.str rs) =>
      match MessageRole.fromValue? rs with
      | some role =>
        match
          (match dictGet kvs (pys "type") with
           | none => some MessageType.unknown
           | some (Json.str ts) => MessageType.fromValue? ts
           | some _ => none) with
        | some ty =>
          match dictGet kvs (pys "content") with
          | some (Json.str content) =>
            match dictGet kvs (pys "content_type") with
            | some (Json.str cts) =>
              match MessageContentType.fromValue? cts with
              | some ct =>
                match metaDataField kvs with
                | some md =>
                  match optStrField kvs (pys "id"), optStrField kvs (pys "conversation_id"),
                      optStrField kvs (pys "bot_id"), optStrField kvs (pys "chat_id"),
                      optIntField kvs (pys "created_at"), optIntField kvs (pys "updated_at") with
                  | some mid, some mcid, some mbid, some mchid, some mca, some mua =>
                    some { role := role, type := ty, content := content, content_type := ct,
                           meta_data := md, id := mid, conversation_id := mcid, bot_id := mbid,
                           chat_id := mchid, created_at := mca, updated_at := mua }
                  | _, _, _, _, _, _ => none
                | none => none
              | none => none
            | _ => none
          | _ => none
        | none => none
      | none => none
    | _ => none
  | _ => none

/-- Modelled from the spec: `Chat.model_validate` (schema validation
inherited from `CozeModel`, not under `src/`): `id`, `conversation_id`,
`bot_id` and `status` are required; the timestamps are `Optional[int]`. -/
def Chat.model_validate (j : Json) : Option Chat :=
  match j with
  | Json.obj kvs =>
    match dictGet kvs (pys "id") with
    | some (Json.str cid) =>
      match dictGet kvs (pys "conversation_id") with
      | some (Json.str convid) =>
        match dictGet kvs (pys "bot_id") with
        | some (Json.str botid) =>
          match dictGet kvs (pys "status") with
          | some (Json.str sts) =>
            match ChatStatus.fromValue? sts with
            | some status =>
              match nullableIntField kvs (pys "created_at"),
                  nullableIntField kvs (pys "completed_at"),
                  nullableIntField kvs (pys "failed_at"), metaDataField kvs with
              | some ca, some compa, some fa, some md =>
                some { id := cid, conversation_id := convid, bot_id := botid,
                       created_at := ca, completed_at := compa, failed_at := fa,
                       meta_data := md, status := status }
              | _, _, _, _ => none
            | none => none
          | _ => none
        | _ => none
      | _ => none
    | _ => none
  | _ => none

/-! ## Stream events (`class Event(str, Enum)`) -/

inductive Event where
  | conversation_chat_created
  | conversation_chat_in_progress
  | conversation_message_delta
  | conversation_message_completed
  | conversation_chat_completed
  | conversation_chat_failed
  | conversation_chat_requires_action
  | error
  | done
deriving DecidableEq

def Event.value : Event → PyStr
  | .conversation_chat_created => pys "conversation.chat.created"
  | .conversation_chat_in_progress => pys "conversation.chat.in_progress"
  | .conversation_message_delta => pys "conversation.message.delta"
  | .conversation_message_completed => pys "conversation.message.completed"
  | .conversation_chat_completed => pys "conversation.chat.completed"
  | .conversation_chat_failed => pys "conversation.chat.failed"
  | .conversation_chat_requires_action => pys "conversation.chat.requires_action"
  | .error => pys "error"
  | .done => pys "done"

/-- The string values of all nine enum members. -/
def knownEventStrs : List PyStr :=
  [Event.conversation_chat_created.value, Event.conversation_chat_in_progress.value,
   Event.conversation_message_delta.value, Event.conversation_message_completed.value,
   Event.conversation_chat_completed.value, Event.conversation_chat_failed.value,
   Event.conversation_chat_requires_action.value, Event.error.value, Event.done.value]

/-- The two message-bearing event values
(`[Event.conversation_message_delta, Event.conversation_message_completed]`). -/
def messageKindStrs : List PyStr :=
  [Event.conversation_message_delta.value, Event.conversation_message_completed.value]

/-- The five chat-bearing event values (the list literal at the
`Chat.model_validate` dispatch branch). -/
def chatKindStrs : List PyStr :=
  [Event.conversation_chat_created.value, Event.conversation_chat_in_progress.value,
   Event.conversation_chat_completed.value, Event.conversation_chat_failed.value,
   Event.conversation_chat_requires_action.value]

/-- The event kinds whose data payload is a `Message` (the membership list
at the `Message.model_validate` dispatch branch). -/
def Event.isMessageBearing : Event → Bool
  | .conversation_message_delta => true
  | .conversation_message_completed => true
  | _ => false

/-- The event kinds whose data payload is a `Chat` (the membership list at
the `Chat.model_validate` dispatch branch). -/
def Event.isChatBearing : Event → Bool
  | .conversation_chat_created => true
  | .conversation_chat_in_progress => true
  | .conversation_chat_completed => true
  | .conversation_chat_failed => true
  | .conversation_chat_requires_action => true
  | _ => false

/-- `class ChatEvent(CozeModel)`: `chat` and `message` default to `None`. -/
structure ChatEvent where
  event : Event
  chat : Option Chat := none
  message : Option Message := none
deriving DecidableEq

/-- The distinct failure outcomes of `ChatIterator.__next__`, identified by
their raise sites: `invalidEvent` is `Exception(f"invalid event: {line}")`
(the three framing raises), `errorEvent` is `Exception(f"error event: {line}")`,
`unknownEvent` is `Exception(f"unknown event: {line}")`, and `decodeError`
is an exception escaping `json.loads` / `model_validate`.  Each carries the
`line` interpolated into its message. -/
inductive ChatError where
  | invalidEvent (line : PyStr)
  | errorEvent (line : PyStr)
  | unknownEvent (line : PyStr)
  | decodeError
deriving DecidableEq

/-- Outcome of one pull on the iterator: a yielded `ChatEvent`, a
`StopIteration`, or a raised error. -/
inductive NextResult where
  | event (e : ChatEvent)
  | stop
  | fail (e : ChatError)
deriving DecidableEq

/-- Outcome of the `while times < 2` line-collecting loop. -/
inductive LoopResult where
  | frame (event data line : PyStr) (rest : List PyStr)
  | stopIteration
  | err (line : PyStr) (rest : List PyStr)
deriving DecidableEq

/-- The `while times < 2` loop of `ChatIterator.__next__`: `rest` is what
remains of the underlying line iterator; blank lines `continue` without
counting; an `event:`/`data:` line stores its suffix unless the slot is
already non-empty; any other line raises; exhaustion of the underlying
iterator propagates its `StopIteration`. -/
def frameLoop : List PyStr → PyStr → PyStr → PyStr → Nat → LoopResult
  | rest, event, data, line, times =>
    if 2 ≤ times then .frame event data line rest
    else
      match rest with
      | [] => .stopIteration
      | l :: rest1 =>
        if l = [] then frameLoop rest1 event data line times
        else if List.isPrefixOf (pys "event:") l then
          if event = [] then frameLoop rest1 (l.drop 6) data l (times + 1)
          else .err l rest1
        else if List.isPrefixOf (pys "data:") l then
          if data = [] then frameLoop rest1 event (l.drop 5) l (times + 1)
          else .err l rest1
        else .err l rest1

/-- Coerce a message-bearing event string back into the `Event` enum (the
pydantic validation performed when `ChatEvent(event=event, ...)` is
constructed, restricted to the strings reaching this branch). -/
def messageKindEvent (ev : PyStr) : Event :=
  if ev = Event.conversation_message_delta.value then Event.conversation_message_delta
  else Event.conversation_message_completed

/-- Coerce a chat-bearing event string back into the `Event` enum. -/
def chatKindEvent (ev : PyStr) : Event :=
  if ev = Event.conversation_chat_created.value then Event.conversation_chat_created
  else if ev = Event.conversation_chat_in_progress.value then Event.conversation_chat_in_progress
  else if ev = Event.conversation_chat_completed.value then Event.conversation_chat_completed
  else if ev = Event.conversation_chat_failed.value then Event.conversation_chat_failed
  else Event.conversation_chat_requires_action

/-- The event dispatch of `ChatIterator.__next__` after the loop.  `line`
holds the last line read, exactly as in the source, and is what the raised
messages interpolate. -/
def decodeFrame (event data line : PyStr) : NextResult :=
  if event = Event.done.value then .stop
  else if event = Event.error.value then .fail (.errorEvent line)
  else if event ∈ messageKindStrs then
    match jsonLoads data with
    | none => .fail .decodeError
    | some j =>
      match Message.model_validate j with
      | none => .fail .decodeError
      | some m => .event { event := messageKindEvent event, chat := none, message := some m }
  else if event ∈ chatKindStrs then
    match jsonLoads data with
    | none => .fail .decodeError
    | some j =>
      match Chat.model_validate j with
      | none => .fail .decodeError
      | some c => .event { event := chatKindEvent event, chat := some c, message := none }
  else .fail (.unknownEvent line)

/-- `ChatIterator.__next__`, with the iterator's only state (the underlying
line iterator position) made explicit: returns the pull's outcome and the
lines still unconsumed. -/
def ChatIterator.next (lines : List PyStr) : NextResult × List PyStr :=
  match frameLoop lines [] [] [] 0 with
  | .frame event data line rest => (decodeFrame event data line, rest)
  | .stopIteration => (.stop, [])
  | .err line rest => (.fail (.invalidEvent line), rest)

/-! ## Serialization (`model_dump`) and the `ChatClient` request body -/

/-- Emit an optional string field: the key is omitted when absent. -/
def optStrEntry (k : PyStr) : Option PyStr → List (PyStr × Json)
  | none => []
  | some s => [(k, Json.str s)]

/-- Emit an optional integer field: the key is omitted when absent. -/
def optIntEntry (k : PyStr) : Option Int → List (PyStr × Json)
  | none => []
  | some n => [(k, Json.num n)]

/-- A `Dict[str, str]` as a JSON object. -/
def strDictJson (kvs : List (PyStr × PyStr)) : Json :=
  Json.obj (kvs.map (fun p => (p.1, Json.str p.2)))

/-- An `Optional[int]` as `null` or a number. -/
def nullableIntJson : Option Int → Json
  | none => Json.null
  | some n => Json.num n

/-- Modelled from the spec: `Message.model_dump` (serialization inherited
from `CozeModel`, not under `src/`).  Required fields and enum string
values are always emitted; per the data model's explicit optionality
(spec §3, §9), absent optional fields are omitted from the object. -/
def Message.model_dump (m : Message) : Json :=
  Json.obj
    ([(pys "role", Json.str m.role.value), (pys "type", Json.str m.type.value),
      (pys "content", Json.str m.content), (pys "content_type", Json.str m.content_type.value)]
      ++ (match m.meta_data with
          | none => []
          | some kvs => [(pys "meta_data", strDictJson kvs)])
      ++ optStrEntry (pys "id") m.id
      ++ optStrEntry (pys "conversation_id") m.conversation_id
      ++ optStrEntry (pys "bot_id") m.bot_id
      ++ optStrEntry (pys "chat_id") m.chat_id
      ++ optIntEntry (pys "created_at") m.created_at
      ++ optIntEntry (pys "updated_at") m.updated_at)

/-- Modelled from the spec: `Chat.model_dump`.  The `Optional[...]` fields
round-trip through an explicit `null`, so every key is always present. -/
def Chat.model_dump (c : Chat) : Json :=
  Json.obj
    [(pys "id", Json.str c.id), (pys "conversation_id", Json.str c.conversation_id),
     (pys "bot_id", Json.str c.bot_id),
     (pys "created_at", nullableIntJson c.created_at),
     (pys "completed_at", nullableIntJson c.completed_at),
     (pys "failed_at", nullableIntJson c.failed_at),
     (pys "meta_data", match c.meta_data with
                       | none => Json.null
                       | some kvs => strDictJson kvs),
     (pys "status", Json.str c.status.value)]

/-- An optional `Dict[str, str]` argument sent as `null` or an object. -/
def optDictJson : Option (List (PyStr × PyStr)) → Json
  | none => Json.null
  | some kvs => strDictJson kvs

/-- The `body` dict built by `ChatClient._create`: `additional_messages`
is `[i.model_dump() for i in additional_messages] if additional_messages
else []` (`None` and `[]` are both falsy), and `conversation_id` is
`conversation_id if conversation_id else None` (`None` and `""` are both
falsy). -/
def ChatClient.createBody (bot_id user_id : PyStr)
    (additional_messages : Option (List Message)) (stream : Bool)
    (custom_variables : Option (List (PyStr × PyStr))) (auto_save_history : Bool)
    (meta_data : Option (List (PyStr × PyStr))) (conversation_id : Option PyStr) :
    List (PyStr × Json) :=
  [(pys "bot_id", Json.str bot_id),
   (pys "user_id", Json.str user_id),
   (pys "additional_messages",
     match additional_messages with
     | none => Json.arr []
     | some [] => Json.arr []
     | some ms => Json.arr (ms.map Message.model_dump)),
   (pys "stream", Json.bool stream),
   (pys "custom_variables", optDictJson custom_variables),
   (pys "auto_save_history", Json.bool auto_save_history),
   (pys "conversation_id",
     match conversation_id with
     | none => Json.null
     | some [] => Json.null
     | some s => Json.str s),
   (pys "meta_data", optDictJson meta_data)]

/-- `ChatClient.create` forwards its arguments to `_create` with
`stream=False`. -/
def ChatClient.createBodyBuffered (bot_id user_id : PyStr)
    (additional_messages : Option (List Message))
    (custom_variables : Option (List (PyStr × PyStr))) (auto_save_history : Bool)
    (meta_data : Option (List (PyStr × PyStr))) (conversation_id : Option PyStr) :
    List (PyStr × Json) :=
  ChatClient.createBody bot_id user_id additional_messages false custom_variables
    auto_save_history meta_data conversation_id

/-- `ChatClient.stream` forwards its arguments to `_create` with
`stream=True`. -/
def ChatClient.createBodyStreaming (bot_id user_id : PyStr)
    (additional_messages : Option (List Message))
    (custom_variables : Option (List (PyStr × PyStr))) (auto_save_history : Bool)
    (meta_data : Option (List (PyStr × PyStr))) (conversation_id : Option PyStr) :
    List (PyStr × Json) :=
  ChatClient.createBody bot_id user_id additional_messages true custom_variables
    auto_save_history meta_data conversation_id

/-! ## Helper lemmas about the frame loop and the dispatch -/

/-- Once two non-blank lines have been counted, the loop exits with the
collected frame and touches no further lines. -/
theorem frameLoop_two (rest : List PyStr) (event data line : PyStr) :
    frameLoop rest event data line 2 = .frame event data line rest := by
  cases rest <;> simp [frameLoop]

/-- Blank lines preceding a frame are skipped and do not count. -/
theorem frameLoop_skip_blanks (bs : List PyStr) (hbs : ∀ l ∈ bs, l = [])
    (rest : List PyStr) (event data line : PyStr) (times : Nat) (ht : times < 2) :
    frameLoop (bs ++ rest) event data line times = frameLoop rest event data line times := by
  induction bs with
  | nil => rfl
  | cons b bs ih =>
    have hb : b = [] := hbs b (by simp)
    subst hb
    have h2 : ¬ 2 ≤ times := by omega
    rw [List.cons_append]
    have step : frameLoop (([] : PyStr) :: (bs ++ rest)) event data line times
        = frameLoop (bs ++ rest) event data line times := by
      simp [frameLoop, h2]
    rw [step, ih (fun l hl => hbs l (by simp [hl]))]

/-- Pulling on a stream whose next frame is an `event:` line followed by a
`data:` line (after any run of blank lines) dispatches on the event value
with the data line as the last line read. -/
theorem next_frame_event_first (bs : List PyStr) (hbs : ∀ l ∈ bs, l = [])
    (ev d : PyStr) (rest : List PyStr) :
    ChatIterator.next (bs ++ (pys "event:" ++ ev) :: (pys "data:" ++ d) :: rest)
      = (decodeFrame ev d (pys "data:" ++ d), rest) := by
  unfold ChatIterator.next
  rw [frameLoop_skip_blanks bs hbs _ [] [] [] 0 (by omega)]
  simp +decide [frameLoop, pys, List.isPrefixOf, frameLoop_two]

/-- Same with the `data:` line first: the event line is then the last line
read. -/
theorem next_frame_data_first (bs : List PyStr) (hbs : ∀ l ∈ bs, l = [])
    (ev d : PyStr) (rest : List PyStr) :
    ChatIterator.next (bs ++ (pys "data:" ++ d) :: (pys "event:" ++ ev) :: rest)
      = (decodeFrame ev d (pys "event:" ++ ev), rest) := by
  unfold ChatIterator.next
  rw [frameLoop_skip_blanks bs hbs _ [] [] [] 0 (by omega)]
  simp +decide [frameLoop, pys, List.isPrefixOf, frameLoop_two]

/-- Dispatch on a message-bearing event value with decodable data. -/
theorem decodeFrame_message (ev d ln : PyStr) (hev : ev ∈ messageKindStrs)
    (j : Json) (hj : jsonLoads d = some j)
    (m : Message) (hm : Message.model_validate j = some m) :
    decodeFrame ev d ln
      = .event { event := messageKindEvent ev, chat := none, message := some m } := by
  have h1 : ¬ ev = Event.done.value := by rintro rfl; revert hev; decide
  have h2 : ¬ ev = Event.error.value := by rintro rfl; revert hev; decide
  unfold decodeFrame
  rw [if_neg h1, if_neg h2, if_pos hev, hj]
  simp [hm]

/-- Dispatch on a chat-bearing event value with decodable data. -/
theorem decodeFrame_chat (ev d ln : PyStr) (hev : ev ∈ chatKindStrs)
    (j : Json) (hj : jsonLoads d = some j)
    (c : Chat) (hc : Chat.model_validate j = some c) :
    decodeFrame ev d ln
      = .event { event := chatKindEvent ev, chat := some c, message := none } := by
  have h1 : ¬ ev = Event.done.value := by rintro rfl; revert hev; decide
  have h2 : ¬ ev = Event.error.value := by rintro rfl; revert hev; decide
  have h3 : ¬ ev ∈ messageKindStrs := by
    rcases (by simpa [chatKindStrs] using hev : _ ∨ _) with rfl | rfl | rfl | rfl | rfl <;> decide
  unfold decodeFrame
  rw [if_neg h1, if_neg h2, if_neg h3, if_pos hev, hj]
  simp [hc]

/-- Dispatch on an event value outside the nine known tags. -/
theorem decodeFrame_unknown (ev d ln : PyStr) (hev : ¬ ev ∈ knownEventStrs) :
    decodeFrame ev d ln = .fail (.unknownEvent ln) := by
  simp [knownEventStrs] at hev
  obtain ⟨n1, n2, n3, n4, n5, n6, n7, n8, n9⟩ := hev
  unfold decodeFrame
  rw [if_neg n9, if_neg n8, if_neg (by simp [messageKindStrs]; exact ⟨n3, n4⟩),
    if_neg (by simp [chatKindStrs]; exact ⟨n1, n2, n5, n6, n7⟩)]

/-- The message branch always stamps a message-bearing kind. -/
theorem messageKindEvent_isMessageBearing (ev : PyStr) :
    (messageKindEvent ev).isMessageBearing = true := by
  unfold messageKindEvent
  split <;> rfl

/-- The message branch never stamps a chat-bearing kind. -/
theorem messageKindEvent_not_chatBearing (ev : PyStr) :
    (messageKindEvent ev).isChatBearing = false := by
  unfold messageKindEvent
  split <;> rfl

/-- The chat branch always stamps a chat-bearing kind. -/
theorem chatKindEvent_isChatBearing (ev : PyStr) :
    (chatKindEvent ev).isChatBearing = true := by
  unfold chatKindEvent
  repeat' split
  all_goals rfl

/-- The chat branch never stamps a message-bearing kind. -/
theorem chatKindEvent_not_messageBearing (ev : PyStr) :
    (chatKindEvent ev).isMessageBearing = false := by
  unfold chatKindEvent
  repeat' split
  all_goals rfl

/-- Every `.event` produced by the dispatch has a kind in one of the two
payload categories, carries exactly the payload of its kind's category,
and never carries both payloads. -/
theorem decodeFrame_event_payload (ev d ln : PyStr) (e : ChatEvent)
    (h : decodeFrame ev d ln = .event e) :
    (e.event.isMessageBearing = true ∨ e.event.isChatBearing = true)
      ∧ (e.event.isMessageBearing = true → e.chat = none ∧ ∃ m, e.message = some m)
      ∧ (e.event.isChatBearing = true → e.message = none ∧ ∃ c, e.chat = some c)
      ∧ (e.chat = none ∨ e.message = none) := by
  unfold decodeFrame at h
  repeat' split at h
  all_goals first
    | (cases h
       done)
    | (cases h
       exact ⟨Or.inl (messageKindEvent_isMessageBearing _), fun _ => ⟨rfl, _, rfl⟩,
         fun hc => absurd hc (by simp [messageKindEvent_not_chatBearing]), Or.inl rfl⟩)
    | (cases h
       exact ⟨Or.inr (chatKindEvent_isChatBearing _),
         fun hm => absurd hm (by simp [chatKindEvent_not_messageBearing]),
         fun _ => ⟨rfl, _, rfl⟩, Or.inr rfl⟩)

/-- Two-line frame with the `event:` line first and no leading blanks. -/
theorem next_two_event_first (ev d : PyStr) (rest : List PyStr) :
    ChatIterator.next ((pys "event:" ++ ev) :: (pys "data:" ++ d) :: rest)
      = (decodeFrame ev d (pys "data:" ++ d), rest) := by
  unfold ChatIterator.next
  simp +decide [frameLoop, pys, List.isPrefixOf, frameLoop_two]

/-- Two-line frame with the `data:` line first and no leading blanks. -/
theorem next_two_data_first (ev d : PyStr) (rest : List PyStr) :
    ChatIterator.next ((pys "data:" ++ d) :: (pys "event:" ++ ev) :: rest)
      = (decodeFrame ev d (pys "event:" ++ ev), rest) := by
  unfold ChatIterator.next
  simp +decide [frameLoop, pys, List.isPrefixOf, frameLoop_two]

/-! ## Concrete example values -/

/-- The `Chat` carried by the spec's `conversation.chat.created` scenario. -/
def exChatCreated : Chat :=
  { id := pys "c1", conversation_id := pys "v1", bot_id := pys "b1",
    created_at := none, completed_at := none, failed_at := none,
    meta_data := none, status := .created }

/-- Its wire JSON as parsed by `jsonLoads`. -/
def exChatCreatedJson : Json :=
  Json.obj [(pys "id", Json.str (pys "c1")), (pys "conversation_id", Json.str (pys "v1")),
            (pys "bot_id", Json.str (pys "b1")), (pys "status", Json.str (pys "created"))]

/-- The `Message` carried by the spec's `conversation.message.delta` scenario. -/
def exMsgDelta : Message :=
  { role := .assistant, type := .answer, content := pys "Hi", content_type := .text,
    meta_data := none, id := none, conversation_id := none, bot_id := none,
    chat_id := none, created_at := none, updated_at := none }

def exMsgDeltaEvent : ChatEvent :=
  { event := .conversation_message_delta, chat := none, message := some exMsgDelta }

/-- A `Chat` in a frame placed after a `done` frame. -/
def exChatInProgress : Chat :=
  { id := pys "c2", conversation_id := pys "v2", bot_id := pys "b2",
    created_at := none, completed_at := none, failed_at := none,
    meta_data := none, status := .in_progress }

def c7Lines : List PyStr :=
  [pys "event:done", pys "data:",
   pys "event:conversation.chat.in_progress",
   pys "data:\x7b\"id\":\"c2\",\"conversation_id\":\"v2\",\"bot_id\":\"b2\",\"status\":\"in_progress\"\x7d"]

/-! ## The claims -/

/-- C2, counterexample: a stream that ends right after a single `data:` line
is decoded as a clean stop (`StopIteration`), not as any raised error. -/
theorem chat_c2_counterexample : ChatIterator.next [pys "data:x"] = (.stop, []) := rfl

/-- C2, amended: if the underlying line sequence is exhausted after only one
of the frame's two required lines (either an `event:` line or a `data:`
line), the pull propagates the underlying `StopIteration`: the caller sees
a clean end of iteration, indistinguishable from `done`, and no framing
error is raised. -/
theorem chat_c2_truncation_is_silent (v d : PyStr) :
    ChatIterator.next [pys "event:" ++ v] = (.stop, [])
      ∧ ChatIterator.next [pys "data:" ++ d] = (.stop, []) := by
  constructor <;>
  · unfold ChatIterator.next
    simp +decide [frameLoop, pys, List.isPrefixOf]

/-- C4, counterexample: with the `data:` line first, `event:error` raises an
error whose carried line is `event:error` itself, which does not contain
the server diagnostic `internal` from the data line. -/
theorem chat_c4_counterexample :
    ChatIterator.next [pys "data:\x7b\"code\":500,\"msg\":\"internal\"\x7d", pys "event:error"]
        = (.fail (.errorEvent (pys "event:error")), [])
      ∧ ¬ List.IsInfix (pys "internal") (pys "event:error") := by
  exact ⟨rfl, by decide⟩

/-- C4, amended: a completed frame whose event-name is `error` always fails
with the stream-error raise, whose detail carries the frame's last-read
line: in event-first order that is the data line (so the detail contains
the server diagnostic), but in data-first order it is the `event:error`
line itself. -/
theorem chat_c4_error_event_detail (d : PyStr) (rest : List PyStr) :
    ChatIterator.next ((pys "event:" ++ pys "error") :: (pys "data:" ++ d) :: rest)
        = (.fail (.errorEvent (pys "data:" ++ d)), rest)
      ∧ ChatIterator.next ((pys "data:" ++ d) :: (pys "event:" ++ pys "error") :: rest)
        = (.fail (.errorEvent (pys "event:" ++ pys "error")), rest) := by
  refine ⟨?_, ?_⟩
  · rw [next_two_event_first]
    rfl
  · rw [next_two_data_first]
    rfl

/-- C5, counterexample: two consecutive `event:` lines where the first has
an empty field value decode without any framing error (here the second
line's `done` value terminates cleanly). -/
theorem chat_c5_counterexample :
    ChatIterator.next [pys "event:", pys "event:done"] = (.stop, []) := rfl

/-- C5, amended: a second `event:` (or `data:`) line within one frame
raises the framing error carrying that second line, provided the first
occurrence's field value was non-empty; with an empty first value the
second occurrence simply fills the still-empty slot. -/
theorem chat_c5_duplicate_prefix (v w : PyStr) (rest : List PyStr) (hv : v ≠ []) :
    ChatIterator.next ((pys "event:" ++ v) :: (pys "event:" ++ w) :: rest)
        = (.fail (.invalidEvent (pys "event:" ++ w)), rest)
      ∧ ChatIterator.next ((pys "data:" ++ v) :: (pys "data:" ++ w) :: rest)
        = (.fail (.invalidEvent (pys "data:" ++ w)), rest) := by
  constructor <;>
  · unfold ChatIterator.next
    simp +decide [frameLoop, pys, List.isPrefixOf, hv]

/-- C5, witness for the amended claim at concrete non-empty values. -/
theorem chat_c5_witness :
    ChatIterator.next ((pys "event:" ++ pys "x") :: (pys "event:" ++ pys "y") :: ([] : List PyStr))
        = (.fail (.invalidEvent (pys "event:" ++ pys "y")), [])
      ∧ ChatIterator.next ((pys "data:" ++ pys "x") :: (pys "data:" ++ pys "y") :: ([] : List PyStr))
        = (.fail (.invalidEvent (pys "data:" ++ pys "y")), []) :=
  chat_c5_duplicate_prefix (pys "x") (pys "y") [] (by decide)

/-- C6 (confirmed): a completed frame whose event-name is `done`, in either
line order and after any run of blank lines, terminates the iteration
cleanly — no error, no payload — whatever the data value (including the
empty one), and the remaining lines are not read on this pull. -/
theorem chat_c6_done_terminates (bs : List PyStr) (hbs : ∀ l ∈ bs, l = [])
    (d : PyStr) (rest : List PyStr) :
    ChatIterator.next (bs ++ (pys "event:" ++ pys "done") :: (pys "data:" ++ d) :: rest)
        = (.stop, rest)
      ∧ ChatIterator.next (bs ++ (pys "data:" ++ d) :: (pys "event:" ++ pys "done") :: rest)
        = (.stop, rest) := by
  refine ⟨?_, ?_⟩
  · rw [next_frame_event_first bs hbs]
    rfl
  · rw [next_frame_data_first bs hbs]
    rfl

/-- C6, witness: a blank line, then `event:done` with empty data. -/
theorem chat_c6_witness :
    ChatIterator.next (([([] : PyStr)] : List PyStr)
        ++ (pys "event:" ++ pys "done") :: (pys "data:" ++ pys "") :: [pys "x"])
        = (.stop, [pys "x"])
      ∧ ChatIterator.next (([([] : PyStr)] : List PyStr)
        ++ (pys "data:" ++ pys "") :: (pys "event:" ++ pys "done") :: [pys "x"])
        = (.stop, [pys "x"]) :=
  chat_c6_done_terminates [([] : PyStr)] (by decide) (pys "") [pys "x"]

/-- C7, counterexample: after a `done` frame the unconsumed lines remain,
and a further pull on the same iterator state reads and yields another
`ChatEvent` — termination is not absorbing. -/
theorem chat_c7_counterexample :
    ChatIterator.next c7Lines
        = (.stop, [pys "event:conversation.chat.in_progress",
                   pys "data:\x7b\"id\":\"c2\",\"conversation_id\":\"v2\",\"bot_id\":\"b2\",\"status\":\"in_progress\"\x7d"])
      ∧ ChatIterator.next (ChatIterator.next c7Lines).2
        = (.event { event := .conversation_chat_in_progress,
                    chat := some exChatInProgress, message := none }, []) := by
  exact ⟨rfl, rfl⟩

/-- C7, amended: the iterator keeps no termination flag.  A `done` frame
leaves the not-yet-consumed lines available, so a subsequent pull resumes
reading frames from them; only exhaustion of the underlying sequence is
absorbing (a pull on the exhausted sequence again returns a clean stop and
leaves it exhausted). -/
theorem chat_c7_no_absorbing_state (d : PyStr) (rest : List PyStr) :
    ChatIterator.next ([] : List PyStr) = (.stop, [])
      ∧ ChatIterator.next ((pys "event:" ++ pys "done") :: (pys "data:" ++ d) :: rest)
        = (.stop, rest)
      ∧ ChatIterator.next ((pys "data:" ++ d) :: (pys "event:" ++ pys "done") :: rest)
        = (.stop, rest) := by
  refine ⟨rfl, ?_, ?_⟩
  · rw [next_two_event_first]
    rfl
  · rw [next_two_data_first]
    rfl

/-- C1 (confirmed): for every well-formed two-line frame — exactly one
`event:` line and one `data:` line, in either order, after any run of
blank lines — whose event value is one of the seven non-control kinds and
whose data value is JSON that validates against the kind's schema,
decoding succeeds and yields a `ChatEvent` of the matching category:
message-bearing kinds carry the decoded `Message`, chat-bearing kinds the
decoded `Chat`. -/
theorem chat_c1_wellformed_frame_decodes (bs : List PyStr) (hbs : ∀ l ∈ bs, l = [])
    (ev d : PyStr) (rest : List PyStr) :
    (ev ∈ messageKindStrs →
      ∀ j m, jsonLoads d = some j → Message.model_validate j = some m →
        ChatIterator.next (bs ++ (pys "event:" ++ ev) :: (pys "data:" ++ d) :: rest)
            = (.event { event := messageKindEvent ev, chat := none, message := some m }, rest)
          ∧ ChatIterator.next (bs ++ (pys "data:" ++ d) :: (pys "event:" ++ ev) :: rest)
            = (.event { event := messageKindEvent ev, chat := none, message := some m }, rest))
    ∧ (ev ∈ chatKindStrs →
      ∀ j c, jsonLoads d = some j → Chat.model_validate j = some c →
        ChatIterator.next (bs ++ (pys "event:" ++ ev) :: (pys "data:" ++ d) :: rest)
            = (.event { event := chatKindEvent ev, chat := some c, message := none }, rest)
          ∧ ChatIterator.next (bs ++ (pys "data:" ++ d) :: (pys "event:" ++ ev) :: rest)
            = (.event { event := chatKindEvent ev, chat := some c, message := none }, rest)) := by
  constructor
  · intro hev j m hj hm
    refine ⟨?_, ?_⟩
    · rw [next_frame_event_first bs hbs, decodeFrame_message ev d _ hev j hj m hm]
    · rw [next_frame_data_first bs hbs, decodeFrame_message ev d _ hev j hj m hm]
  · intro hev j c hj hc
    refine ⟨?_, ?_⟩
    · rw [next_frame_event_first bs hbs, decodeFrame_chat ev d _ hev j hj c hc]
    · rw [next_frame_data_first bs hbs, decodeFrame_chat ev d _ hev j hj c hc]

/-- C1, witness: the spec's `conversation.chat.created` scenario. -/
theorem chat_c1_witness :
    ChatIterator.next (([] : List PyStr) ++ (pys "event:" ++ pys "conversation.chat.created")
        :: (pys "data:"
            ++ pys "\x7b\"id\":\"c1\",\"conversation_id\":\"v1\",\"bot_id\":\"b1\",\"status\":\"created\"\x7d")
        :: [])
      = (.event { event := chatKindEvent (pys "conversation.chat.created"),
                  chat := some exChatCreated, message := none }, []) :=
  ((chat_c1_wellformed_frame_decodes [] (by decide) (pys "conversation.chat.created")
      (pys "\x7b\"id\":\"c1\",\"conversation_id\":\"v1\",\"bot_id\":\"b1\",\"status\":\"created\"\x7d")
      []).2 (by decide) exChatCreatedJson exChatCreated (by rfl) (by rfl)).1

/-- C3, counterexample: for the spec's own example
`["event:something.else", "data:{}"]` the raised unknown-event error
carries the frame's last-read line, `data:{}`, and does not name the
unrecognized tag `something.else`. -/
theorem chat_c3_counterexample :
    ChatIterator.next [pys "event:something.else", pys "data:\x7b\x7d"]
        = (.fail (.unknownEvent (pys "data:\x7b\x7d")), [])
      ∧ ¬ List.IsInfix (pys "something.else") (pys "data:\x7b\x7d") := by
  exact ⟨rfl, by decide⟩

/-- C3, amended: a completed frame whose event value is outside the nine
known tags always fails with the unknown-event error, but its diagnostic
carries the frame's last-read line: with the `event:` line first that is
the data line, and only in data-first order is it the event line naming
the unrecognized tag. -/
theorem chat_c3_unknown_event (ev d : PyStr) (rest : List PyStr)
    (hev : ¬ ev ∈ knownEventStrs) :
    ChatIterator.next ((pys "event:" ++ ev) :: (pys "data:" ++ d) :: rest)
        = (.fail (.unknownEvent (pys "data:" ++ d)), rest)
      ∧ ChatIterator.next ((pys "data:" ++ d) :: (pys "event:" ++ ev) :: rest)
        = (.fail (.unknownEvent (pys "event:" ++ ev)), rest) := by
  refine ⟨?_, ?_⟩
  · rw [next_two_event_first, decodeFrame_unknown ev d _ hev]
  · rw [next_two_data_first, decodeFrame_unknown ev d _ hev]

/-- C3, witness for the amended claim at the spec's example tag. -/
theorem chat_c3_witness :
    ChatIterator.next ((pys "event:" ++ pys "something.else")
        :: (pys "data:" ++ pys "\x7b\x7d") :: ([] : List PyStr))
        = (.fail (.unknownEvent (pys "data:" ++ pys "\x7b\x7d")), [])
      ∧ ChatIterator.next ((pys "data:" ++ pys "\x7b\x7d")
        :: (pys "event:" ++ pys "something.else") :: ([] : List PyStr))
        = (.fail (.unknownEvent (pys "event:" ++ pys "something.else")), []) :=
  chat_c3_unknown_event (pys "something.else") (pys "\x7b\x7d") [] (by decide)

/-- C9 (confirmed): every `ChatEvent` actually yielded by a pull has a
kind in one of the two payload categories and carries exactly the payload
of that category — a message-bearing kind has `chat = none` and only
`message` set, a chat-bearing kind has `message = none` and only `chat`
set — and no yielded event ever carries both payloads. -/
theorem chat_c9_single_payload (lines rest : List PyStr) (e : ChatEvent)
    (h : ChatIterator.next lines = (.event e, rest)) :
    (e.event.isMessageBearing = true ∨ e.event.isChatBearing = true)
      ∧ (e.event.isMessageBearing = true → e.chat = none ∧ ∃ m, e.message = some m)
      ∧ (e.event.isChatBearing = true → e.message = none ∧ ∃ c, e.chat = some c)
      ∧ (e.chat = none ∨ e.message = none) := by
  unfold ChatIterator.next at h
  rcases hfl : frameLoop lines [] [] [] 0 with ⟨ev, d, ln, r⟩ | _ | ⟨ln, r⟩ <;> rw [hfl] at h
  · simp only [Prod.mk.injEq] at h
    exact decodeFrame_event_payload ev d ln e h.1
  · simp at h
  · simp at h

/-- C9, witness: the spec's `conversation.message.delta` scenario. -/
theorem chat_c9_witness :
    (exMsgDeltaEvent.event.isMessageBearing = true
        ∨ exMsgDeltaEvent.event.isChatBearing = true)
      ∧ (exMsgDeltaEvent.event.isMessageBearing = true →
          exMsgDeltaEvent.chat = none ∧ ∃ m, exMsgDeltaEvent.message = some m)
      ∧ (exMsgDeltaEvent.event.isChatBearing = true →
          exMsgDeltaEvent.message = none ∧ ∃ c, exMsgDeltaEvent.chat = some c)
      ∧ (exMsgDeltaEvent.chat = none ∨ exMsgDeltaEvent.message = none) :=
  chat_c9_single_payload
    [pys "event:conversation.message.delta",
     pys "data:\x7b\"role\":\"assistant\",\"type\":\"answer\",\"content\":\"Hi\",\"content_type\":\"text\"\x7d"]
    [] exMsgDeltaEvent (by rfl)

/-- C10 (confirmed): in the request body built by `ChatClient._create`
(and hence by `create` and `stream`), a `conversation_id` equal to the
empty string is sent as `null`, exactly as when no `conversation_id` is
passed; and an absent or empty `additional_messages` list is sent as the
empty array. -/
theorem chat_c10_falsy_create_args (b u : PyStr) (am : Option (List Message)) (st : Bool)
    (cv : Option (List (PyStr × PyStr))) (ash : Bool) (md : Option (List (PyStr × PyStr)))
    (cid : Option PyStr) :
    ChatClient.createBody b u am st cv ash md (some [])
        = ChatClient.createBody b u am st cv ash md none
      ∧ ChatClient.createBody b u none st cv ash md cid
        = ChatClient.createBody b u (some []) st cv ash md cid
      ∧ dictGet (ChatClient.createBody b u none st cv ash md cid) (pys "additional_messages")
        = some (Json.arr [])
      ∧ ChatClient.createBodyBuffered b u am cv ash md (some [])
        = ChatClient.createBodyBuffered b u am cv ash md none
      ∧ ChatClient.createBodyStreaming b u am cv ash md (some [])
        = ChatClient.createBodyStreaming b u am cv ash md none := by
  refine ⟨rfl, rfl, ?_, rfl, rfl⟩
  rfl

/-! ## Round-trip lemmas for the serialization model -/

theorem messageRole_fromValue_value (r : MessageRole) :
    MessageRole.fromValue? r.value = some r := by
  cases r <;> rfl

theorem messageType_fromValue_value (t : MessageType) :
    MessageType.fromValue? t.value = some t := by
  cases t <;> rfl

theorem messageContentType_fromValue_value (t : MessageContentType) :
    MessageContentType.fromValue? t.value = some t := by
  cases t <;> rfl

theorem chatStatus_fromValue_value (s : ChatStatus) :
    ChatStatus.fromValue? s.value = some s := by
  cases s <;> rfl

theorem strPairs_map (kvs : List (PyStr × PyStr)) :
    strPairs? (kvs.map (fun p => (p.1, Json.str p.2))) = some kvs := by
  induction kvs with
  | nil => rfl
  | cons p rest ih => cases p; simp [strPairs?, ih]

set_option maxHeartbeats 8000000 in
theorem message_validate_dump (m : Message) :
    Message.model_validate (Message.model_dump m) = some m := by
  obtain ⟨role, ty, content, ct, md, mid, mcid, mbid, mchid, mca, mua⟩ := m
  rcases md with _ | md <;> rcases mid with _ | mid <;> rcases mcid with _ | mcid <;>
    rcases mbid with _ | mbid <;> rcases mchid with _ | mchid <;>
    rcases mca with _ | mca <;> rcases mua with _ | mua <;>
    simp +decide [Message.model_dump, Message.model_validate, dictGet, optStrField,
      optIntField, metaDataField, optStrEntry, optIntEntry, strDictJson, strPairs_map, pys,
      messageRole_fromValue_value, messageType_fromValue_value,
      messageContentType_fromValue_value]

set_option maxHeartbeats 4000000 in
theorem chat_validate_dump (c : Chat) :
    Chat.model_validate (Chat.model_dump c) = some c := by
  obtain ⟨cid, convid, botid, ca, compa, fa, md, status⟩ := c
  rcases ca with _ | ca <;> rcases compa with _ | compa <;> rcases fa with _ | fa <;>
    rcases md with _ | md <;>
    simp +decide [Chat.model_dump, Chat.model_validate, dictGet, nullableIntField,
      metaDataField, nullableIntJson, strDictJson, strPairs_map, pys,
      chatStatus_fromValue_value]

/-- C8 (confirmed): serializing any `Message` or `Chat` to its JSON schema
representation and validating that JSON back through the corresponding
schema yields a value equal to the original. -/
theorem chat_c8_roundtrip (m : Message) (c : Chat) :
    Message.model_validate (Message.model_dump m) = some m
      ∧ Chat.model_validate (Chat.model_dump c) = some c :=
  ⟨message_validate_dump m, chat_validate_dump c⟩
